import Mathlib

/-!
Verification development for the credit-card statement parser
(`app/parsing/main_parser.py`, `app/parsing/strategies/*.py`,
`app/parsing/ocr_utils.py`).

The Python code is shallowly embedded: text is `List Char`, Python's `re`
patterns are compiled by hand to an executable backtracking matcher with
PCRE-style leftmost/priority semantics (all searches in the source use
`re.IGNORECASE`, and `_find_by_regex` additionally uses `re.DOTALL`),
`datetime.strptime` is modelled per CPython's `_strptime` token regexes,
currency values and confidence scores are rationals, and exceptions are
`Except`.
-/

namespace CCParser

/-! ## Python string primitives -/

/-- Text is a list of characters (Python `str`). -/
abbrev Str := List Char

/-- Python `str.isspace` / the `\s` regex class: `' '`, `\t`, `\n`, `\r`,
`\x0b`, `\x0c` (ASCII range, which is all that occurs in statements). -/
def pyIsSpace (c : Char) : Bool :=
  c = ' ' || c = '\t' || c = '\n' || c = '\r' || c = '\x0b' || c = '\x0c'

/-- Python `str.lower` (ASCII). -/
def pyLower (s : Str) : Str := s.map Char.toLower

/-- Python `str.strip()`: remove leading and trailing whitespace. -/
def pyStrip (s : Str) : Str :=
  ((s.dropWhile pyIsSpace).reverse.dropWhile pyIsSpace).reverse

/-- Python's `\w` regex class (ASCII part): letters, digits, underscore. -/
def isWordChar (c : Char) : Bool := c.isAlphanum || c = '_'

/-- First index at which `needle` occurs in `hay` (Python `str.index` /
`in`), or `none`. -/
def findSub : Str → Str → Option Nat
  | _, [] => some 0
  | [], _ :: _ => none
  | hay@(_ :: rest), needle =>
    if needle.isPrefixOf hay then some 0
    else (findSub rest needle).map (· + 1)

/-- Python `needle in hay` substring test. -/
def containsSub (hay needle : Str) : Bool := (findSub hay needle).isSome

/-- Python slice `s[a:b]` (for `0 ≤ a ≤ b`; clamping is implicit). -/
def pySlice (s : Str) (a b : Nat) : Str := (s.drop a).take (b - a)

/-- Python `'\n'.join` over a list of strings. -/
def joinNL : List Str → Str
  | [] => []
  | [x] => x
  | x :: xs => x ++ '\n' :: joinNL xs

/-- Python `str.split('\n')`. -/
def splitNL (s : Str) : List Str := s.splitOn '\n'

/-- Python `str.title()` (ASCII): the first letter of each run of letters is
uppercased, later letters of the run are lowercased. -/
def pyTitleGo : Bool → Str → Str
  | _, [] => []
  | prevCased, c :: cs =>
    let cased := c.isAlpha
    let c' := if cased && !prevCased then c.toUpper
              else if cased then c.toLower else c
    c' :: pyTitleGo cased cs

/-- Python `str.title()`. -/
def pyTitle (s : Str) : Str := pyTitleGo false s

/-- Numeric value of a digit string (`int(...)` on the digits present). -/
def digitsVal (s : Str) : Nat :=
  s.foldl (fun a c => a * 10 + (c.toNat - '0'.toNat)) 0

/-! ## Regex engine

Executable backtracking matcher for the fragment of Python `re` used by the
parser: literals, character classes, concatenation, alternation, greedy and
lazy `*`/`?` (counted repetitions are desugared), capturing groups, and the
`$` anchor.  Matching is case-insensitive on literals, mirroring the
`re.IGNORECASE` flag that every search in the source passes.  Priority of
alternatives and of greedy/lazy repetition follows Python's backtracking
order; `re.search` tries successive start positions left to right. -/

inductive RE where
  | eps
  | lit (c : Char)
  | cls (p : Char → Bool)
  | seq (a b : RE)
  | alt (a b : RE)
  | star (greedy : Bool) (a : RE)
  | opt (greedy : Bool) (a : RE)
  | group (n : Nat) (a : RE)
  | eos

/-- Captured groups: latest binding for an index wins. -/
abbrev Caps := List (Nat × Str)

/-- Record a capture. -/
def setCap (caps : Caps) (n : Nat) (v : Str) : Caps := (n, v) :: caps

/-- Look up a capture (`none` = group did not participate in the match). -/
def getCap (caps : Caps) (n : Nat) : Option Str :=
  (caps.find? (fun p => p.1 = n)).map (·.2)

/-- Structural size of a pattern, used to compute an ample fuel bound. -/
def RE.size : RE → Nat
  | .eps => 1
  | .lit _ => 1
  | .cls _ => 1
  | .eos => 1
  | .seq a b => a.size + b.size + 1
  | .alt a b => a.size + b.size + 1
  | .star _ a => a.size + 1
  | .opt _ a => a.size + 1
  | .group _ a => a.size + 1

/-- Backtracking matcher in continuation-passing style.  `k` receives the
remaining input and captures; the first success in Python's priority order
is returned.  The recursion is structural on `fuel` so the definition
computes by kernel reduction; star iterations require the body to have
consumed input, so the call-nesting depth — and hence the fuel needed — is
at most `(pattern size) · (input length + 1)`, and the entry points supply
more than that. -/
def mat : Nat → RE → Str → Caps → (Str → Caps → Option (Caps × Str)) →
    Option (Caps × Str)
  | 0, _, _, _, _ => none
  | _ + 1, .eps, s, c, k => k s c
  | _ + 1, .lit ch, s, c, k =>
    match s with
    | [] => none
    | x :: xs => if x.toLower = ch.toLower then k xs c else none
  | _ + 1, .cls p, s, c, k =>
    match s with
    | [] => none
    | x :: xs => if p x then k xs c else none
  | f + 1, .seq a b, s, c, k => mat f a s c (fun s' c' => mat f b s' c' k)
  | f + 1, .alt a b, s, c, k =>
    (mat f a s c k).orElse (fun _ => mat f b s c k)
  | f + 1, .opt true a, s, c, k =>
    (mat f a s c k).orElse (fun _ => k s c)
  | f + 1, .opt false a, s, c, k =>
    (k s c).orElse (fun _ => mat f a s c k)
  | f + 1, .star true a, s, c, k =>
    (mat f a s c (fun s' c' =>
      if s'.length < s.length then mat f (.star true a) s' c' k
      else k s' c')).orElse (fun _ => k s c)
  | f + 1, .star false a, s, c, k =>
    (k s c).orElse (fun _ => mat f a s c (fun s' c' =>
      if s'.length < s.length then mat f (.star false a) s' c' k
      else none))
  | f + 1, .group n a, s, c, k =>
    mat f a s c (fun s' c' =>
      k s' (setCap c' n (s.take (s.length - s'.length))))
  | _ + 1, .eos, s, c, k =>
    if s.isEmpty || s = ['\n'] then k s c else none

/-- Top continuation: accept with the captures and remaining input. -/
def topK : Str → Caps → Option (Caps × Str) := fun s c => some (c, s)

/-- Anchored match at the start of `s` (Python `regex.match`). -/
def matchAt (re : RE) (s : Str) : Option (Caps × Str) :=
  mat ((s.length + 1) * (re.size + 1)) re s [] topK

/-- Python `re.search`: try successive start positions, leftmost match
wins. -/
def searchFrom (re : RE) : Str → Option (Caps × Str)
  | [] => matchAt re []
  | s@(_ :: rest) =>
    match matchAt re s with
    | some r => some r
    | none => searchFrom re rest

/-- A compiled pattern: whether it begins with `^`, its body, and its
number of capturing groups. -/
structure Pat where
  anchored : Bool
  re : RE
  ngroups : Nat

/-- Run `re.search(pattern, text)` and return the match's captures. -/
def reSearch (p : Pat) (text : Str) : Option Caps :=
  let r := if p.anchored then matchAt p.re text else searchFrom p.re text
  r.map (·.1)

/-! ### Pattern-building combinators -/

/-- Concatenation of a pattern list. -/
def cat (l : List RE) : RE := l.foldr RE.seq RE.eps

/-- Case-insensitive literal string. -/
def strLit (s : String) : RE := cat (s.data.map RE.lit)

/-- Alternation (first alternative has priority); empty list never
matches. -/
def alts : List RE → RE
  | [] => RE.cls (fun _ => false)
  | [r] => r
  | r :: rs => RE.alt r (alts rs)

/-- The `\d` class. -/
def dCls : RE := RE.cls Char.isDigit

/-- The `\s` class. -/
def sCls : RE := RE.cls pyIsSpace

/-- The `\w` class. -/
def wCls : RE := RE.cls isWordChar

/-- `.` under `re.DOTALL` (matches any character). -/
def dotAll : RE := RE.cls (fun _ => true)

/-- `.` without `re.DOTALL` (any character except newline). -/
def dotNoNL : RE := RE.cls (fun c => c ≠ '\n')

/-- Greedy `r+`. -/
def plus (r : RE) : RE := RE.seq r (RE.star true r)

/-- `r{n}`. -/
def rep (r : RE) (n : Nat) : RE := cat (List.replicate n r)

/-- Greedy `r{0,n}` (tries the longest repetition first). -/
def atMost (r : RE) : Nat → RE
  | 0 => RE.eps
  | n + 1 => RE.opt true (RE.seq r (atMost r n))

/-- Greedy `r{m,n}`. -/
def between (r : RE) (m n : Nat) : RE := RE.seq (rep r m) (atMost r (n - m))

/-- Greedy `r{m,}`. -/
def atLeast (r : RE) (m : Nat) : RE := RE.seq (rep r m) (RE.star true r)

/-! ## BaseParser shared patterns (`base_parser.py`) -/

/-- The `[\d,]` class. -/
def digitComma : RE := RE.cls (fun c => c.isDigit || c = ',')

/-- `AMOUNT_REGEX = r"\$?([\d,]+\.\d{2})"`. -/
def AMOUNT_PAT : Pat :=
  ⟨false,
   cat [RE.opt true (RE.lit '$'),
        RE.group 1 (cat [plus digitComma, RE.lit '.', rep dCls 2])],
   1⟩

/-- `DATE_REGEX =
r"(\d{1,2}/\d{1,2}/\d{2,4})|(\w+\.?\s+\d{1,2},?\s+\d{4})|(\d{4}-\d{2}-\d{2})"`. -/
def DATE_PAT : Pat :=
  ⟨false,
   alts
     [RE.group 1 (cat [between dCls 1 2, RE.lit '/', between dCls 1 2,
                       RE.lit '/', between dCls 2 4]),
      RE.group 2 (cat [plus wCls, RE.opt true (RE.lit '.'), plus sCls,
                       between dCls 1 2, RE.opt true (RE.lit ','), plus sCls,
                       rep dCls 4]),
      RE.group 3 (cat [rep dCls 4, RE.lit '-', rep dCls 2, RE.lit '-',
                       rep dCls 2])],
   3⟩

/-- The `[\*xX\.]` mask class. -/
def maskCls : RE := RE.cls (fun c => c = '*' || c = 'x' || c = 'X' || c = '.')

/-- The `[\s\-]` class. -/
def spaceDash : RE := RE.cls (fun c => pyIsSpace c || c = '-')

/-- `CARD_DIGITS_REGEX = r"[\*xX\.]{4,}[\s\-]?(\d{4})"`. -/
def CARD_DIGITS_PAT : Pat :=
  ⟨false,
   cat [atLeast maskCls 4, RE.opt true spaceDash, RE.group 1 (rep dCls 4)],
   1⟩

/-- `BaseParser._find_by_regex`: search, then return the first non-empty
captured group, stripped; `None` if there is no match or every group is
empty or absent. -/
def find_by_regex (p : Pat) (text : Str) : Option Str :=
  match reSearch p text with
  | none => none
  | some caps =>
    (List.range' 1 p.ngroups).findSome? (fun i =>
      match getCap caps i with
      | some v => if v = [] then none else some (pyStrip v)
      | none => none)

/-! ## Amount normalization (`BaseParser._clean_amount`)

Currency values are modelled as exact rationals.  `pyFloat` models CPython's
`float(str)` on finite decimal literals with an optional exponent; the
non-finite literals (`inf`, `nan`) and digit-group underscores accepted by
CPython cannot arise from statement text and are outside the model, and the
rounding of the exact decimal value to binary double precision is not
modelled (every value compared in this development is exact in both). -/

/-- Split off a leading run of digits. -/
def takeDigits (s : Str) : Str × Str :=
  (s.takeWhile Char.isDigit, s.dropWhile Char.isDigit)

/-- Parse the optional exponent suffix of a float literal and apply it to
the signed mantissa `n / d`.  All arithmetic is on the integer numerator and
denominator; the rational is assembled once with `mkRat`. -/
def parseExpPart (n : ℤ) (d : ℕ) (r : Str) : Option ℚ :=
  match r with
  | [] => some (mkRat n d)
  | c :: r' =>
    if c = 'e' || c = 'E' then
      let (neg, r2) : Bool × Str :=
        match r' with
        | '+' :: t => (false, t)
        | '-' :: t => (true, t)
        | _ => (false, r')
      let (ed, r3) := takeDigits r2
      if ed = [] || r3 ≠ [] then none
      else if neg then some (mkRat n (d * 10 ^ digitsVal ed))
      else some (mkRat (n * 10 ^ digitsVal ed) d)
    else none

/-- Model of `float(s)` for finite decimal literals. -/
def pyFloat (s0 : Str) : Option ℚ :=
  let s1 := pyStrip s0
  let (neg, s2) : Bool × Str :=
    match s1 with
    | '+' :: t => (false, t)
    | '-' :: t => (true, t)
    | _ => (false, s1)
  let (ip, r1) := takeDigits s2
  match r1 with
  | '.' :: r2 =>
    let (fp, r3) := takeDigits r2
    if ip = [] && fp = [] then none
    else
      let m : ℤ := (digitsVal ip * 10 ^ fp.length + digitsVal fp : ℕ)
      parseExpPart (if neg then -m else m) (10 ^ fp.length) r3
  | _ =>
    if ip = [] then none
    else
      let m : ℤ := (digitsVal ip : ℕ)
      parseExpPart (if neg then -m else m) 1 r1

/-- Round `n / d` (with `d > 0`) to the nearest integer, ties to even
(Python `round`), by integer arithmetic on the floor and remainder. -/
def roundHalfEven (n : ℤ) (d : ℕ) : ℤ :=
  let f : ℤ := Int.fdiv n d
  let r2 : ℤ := 2 * (n - f * d)
  if r2 < d then f
  else if (d : ℤ) < r2 then f + 1
  else if f % 2 = 0 then f else f + 1

/-- Python `round(x, 2)` on the exact rational value. -/
def round2 (q : ℚ) : ℚ := mkRat (roundHalfEven (q.num * 100) q.den) 100

/-- `BaseParser._clean_amount`: falsy input is `None`; remove `$`, commas
and whitespace; parse as a float and round to 2 decimals; a parse failure
is `None`. -/
def clean_amount : Option Str → Option ℚ
  | none => none
  | some s =>
    if s = [] then none
    else
      let cleaned := s.filter (fun c => !(c = '$' || c = ',' || pyIsSpace c))
      match pyFloat cleaned with
      | some v => some (round2 v)
      | none => none

/-! ## Date normalization (`BaseParser._parse_date`)

`datetime.strptime` is modelled after CPython's `_strptime`: each directive
is a regex alternation (`%m`: `1[0-2]|0[1-9]|[1-9]`; `%d`:
`3[01]|[12]\d|0[1-9]|[1-9]| [1-9]`; `%y`: `\d\d`; `%Y`: `\d\d\d\d`; `%b`/`%B`:
the C-locale month names, longest first; literal whitespace in the format:
`\s+`), compiled with `IGNORECASE`, matched anchored at the start with the
requirement that the whole string is consumed, followed by `datetime.date`
range validation (which rejects e.g. day 31 in a 30-day month and year 0)
and the POSIX `%y` century rule (00–68 ↦ 2000s, 69–99 ↦ 1900s). -/

/-- A calendar date as produced by `datetime.date`. -/
structure Date where
  year : Nat
  month : Nat
  day : Nat
deriving DecidableEq, Repr

/-- Gregorian leap year. -/
def isLeap (y : Nat) : Bool := y % 4 = 0 && (y % 100 ≠ 0 || y % 400 = 0)

/-- Length of month `m` in year `y`. -/
def daysInMonth (y m : Nat) : Nat :=
  if m = 2 then (if isLeap y then 29 else 28)
  else if m = 4 || m = 6 || m = 9 || m = 11 then 30
  else 31

/-- `strptime` format directives used by `_parse_date`'s format list. -/
inductive DTok where
  | dirM | dirD | dirY2 | dirY4 | dirB | dirBB | litSlash | litDash | fmtWS
deriving DecidableEq, Repr

/-- C-locale abbreviated month names (`%b`), calendar order. -/
def monthAbbrevs : List String :=
  ["jan", "feb", "mar", "apr", "may", "jun",
   "jul", "aug", "sep", "oct", "nov", "dec"]

/-- C-locale full month names (`%B`), calendar order. -/
def monthFulls : List String :=
  ["january", "february", "march", "april", "may", "june", "july",
   "august", "september", "october", "november", "december"]

/-- Full month names ordered longest-first as CPython's `__seqToRE` sorts
them for the `%B` alternation. -/
def monthFullsByLen : List String :=
  ["september", "february", "november", "december", "january", "october",
   "august", "april", "march", "june", "july", "may"]

/-- A nonzero digit. -/
def nzDigit : RE := RE.cls (fun c => '1' ≤ c && c ≤ '9')

/-- Compile a directive to its CPython `_strptime` regex.  Captures:
group 1 = month, group 2 = day, group 3 = year. -/
def tokRE : DTok → RE
  | .dirM => RE.group 1 (alts
      [cat [RE.lit '1', RE.cls (fun c => c = '0' || c = '1' || c = '2')],
       cat [RE.lit '0', nzDigit],
       nzDigit])
  | .dirD => RE.group 2 (alts
      [cat [RE.lit '3', RE.cls (fun c => c = '0' || c = '1')],
       cat [RE.cls (fun c => c = '1' || c = '2'), dCls],
       cat [RE.lit '0', nzDigit],
       nzDigit,
       cat [RE.lit ' ', nzDigit]])
  | .dirY2 => RE.group 3 (rep dCls 2)
  | .dirY4 => RE.group 3 (rep dCls 4)
  | .dirB => RE.group 1 (alts (monthAbbrevs.map strLit))
  | .dirBB => RE.group 1 (alts (monthFullsByLen.map strLit))
  | .litSlash => RE.lit '/'
  | .litDash => RE.lit '-'
  | .fmtWS => plus sCls

/-- The `common_formats` list of `_parse_date`, in source order:
`%m/%d/%y`, `%m/%d/%Y`, `%d/%m/%y`, `%d/%m/%Y`, `%b %d %Y`, `%B %d %Y`,
`%Y-%m-%d`, `%d-%m-%Y`. -/
def FORMATS : List (List DTok) :=
  [[.dirM, .litSlash, .dirD, .litSlash, .dirY2],
   [.dirM, .litSlash, .dirD, .litSlash, .dirY4],
   [.dirD, .litSlash, .dirM, .litSlash, .dirY2],
   [.dirD, .litSlash, .dirM, .litSlash, .dirY4],
   [.dirB, .fmtWS, .dirD, .fmtWS, .dirY4],
   [.dirBB, .fmtWS, .dirD, .fmtWS, .dirY4],
   [.dirY4, .litDash, .dirM, .litDash, .dirD],
   [.dirD, .litDash, .dirM, .litDash, .dirY4]]

/-- Month number from a captured month token: digits for `%m`, otherwise a
case-insensitive month name. -/
def monthOfCap (v : Str) : Option Nat :=
  if v ≠ [] && v.all Char.isDigit then some (digitsVal v)
  else
    match monthAbbrevs.findIdx? (fun nm => nm.data = pyLower v) with
    | some i => some (i + 1)
    | none =>
      (monthFulls.findIdx? (fun nm => nm.data = pyLower v)).map (· + 1)

/-- `datetime.strptime(s, fmt).date()` for one format: anchored match, full
consumption, century rule, calendar validation. -/
def tryFormat (fmt : List DTok) (s : Str) : Option Date :=
  match matchAt (cat (fmt.map tokRE)) s with
  | none => none
  | some (caps, rest) =>
    if rest ≠ [] then none
    else
      match getCap caps 1, getCap caps 2, getCap caps 3 with
      | some mv, some dv, some yv =>
        match monthOfCap mv with
        | none => none
        | some m =>
          let d := digitsVal (dv.filter Char.isDigit)
          let yn := digitsVal yv
          let y := if yv.length = 2 then
                     (if yn ≤ 68 then 2000 + yn else 1900 + yn)
                   else yn
          if 1 ≤ y && y ≤ 9999 && 1 ≤ m && m ≤ 12 && 1 ≤ d &&
             d ≤ daysInMonth y m then
            some ⟨y, m, d⟩
          else none
      | _, _, _ => none

/-- The cleaning step of `_parse_date`:
`date_str.strip().replace('.', '').replace(',', '')`. -/
def cleanDateStr (s : Str) : Str :=
  ((pyStrip s).filter (fun c => c ≠ '.')).filter (fun c => c ≠ ',')

/-- `BaseParser._parse_date`: falsy input is `None`; clean, then return the
first format that parses; `None` (not an error) if none does. -/
def parse_date : Option Str → Option Date
  | none => none
  | some s =>
    if s = [] then none
    else FORMATS.findSome? (fun f => tryFormat f (cleanDateStr s))

/-! ## Proximity search (`BaseParser._find_proximity_match`) -/

/-- `BaseParser._find_proximity_match`: locate the keyword
case-insensitively, slice a window after it (or before it when
`search_backward`), and search the window.  A missing keyword is `None`. -/
def find_proximity_match (text keyword : Str) (p : Pat) (window : Nat)
    (search_backward : Bool) : Option Str :=
  match findSub (pyLower text) (pyLower keyword) with
  | none => none
  | some idx =>
    if search_backward then
      find_by_regex p (pySlice text (idx - window) idx)
    else
      let s := idx + keyword.length
      find_by_regex p (pySlice text s (min text.length (s + window)))

/-- `BaseParser._find_date_near_keyword` (window 150). -/
def find_date_near_keyword (text keyword : Str) : Option Str :=
  find_proximity_match text keyword DATE_PAT 150 false

/-- `BaseParser._find_amounts_near_keyword` (window 150). -/
def find_amounts_near_keyword (text keyword : Str) : Option Str :=
  find_proximity_match text keyword AMOUNT_PAT 150 false

/-- Default pattern of `_find_text_near_keyword`:
`([A-Za-z0-9\s\-\.]+)`. -/
def TEXT_PAT : Pat :=
  ⟨false,
   RE.group 1 (plus (RE.cls (fun c =>
     c.isAlphanum || pyIsSpace c || c = '-' || c = '.'))),
   1⟩

/-- `BaseParser._find_text_near_keyword` (window 100). -/
def find_text_near_keyword (text keyword : Str) : Option Str :=
  find_proximity_match text keyword TEXT_PAT 100 false

/-! ## Card number extraction (`BaseParser._find_last4_card`) -/

/-- The five patterns of `_find_last4_card`, in source order. -/
def LAST4_PATS : List Pat :=
  [⟨false, cat [strLit "Account", plus sCls, strLit "Ending",
                RE.star true sCls, RE.opt true (RE.lit '-'),
                RE.star true sCls, RE.group 1 (between dCls 4 5)], 1⟩,
   ⟨false, cat [strLit "Card", plus sCls,
                RE.opt true (cat [strLit "Number", plus sCls]),
                strLit "Ending", RE.star true sCls,
                RE.opt true (RE.cls (fun c => c = ':' || c = '-')),
                RE.star true sCls, RE.group 1 (between dCls 4 5)], 1⟩,
   ⟨false, cat [strLit "Account", RE.star true sCls,
                RE.alt (RE.lit '#') (strLit "Number"),
                RE.star true sCls, plus maskCls, RE.opt true spaceDash,
                RE.group 1 (rep dCls 4)], 1⟩,
   ⟨false, cat [strLit "Card", RE.star true sCls,
                RE.opt true (RE.alt (RE.lit '#') (strLit "Number")),
                RE.star true sCls, plus maskCls, RE.opt true spaceDash,
                RE.group 1 (rep dCls 4)], 1⟩,
   CARD_DIGITS_PAT]

/-- Digits of a matched card string, keeping the last 4
(`re.sub(r'\D', '', match)` then `digits[-4:] if len(digits) >= 4 else
digits`). -/
def digitsLast4 (m : Str) : Str :=
  let ds := m.filter Char.isDigit
  if 4 ≤ ds.length then ds.drop (ds.length - 4) else ds

/-- `BaseParser._find_last4_card`: first pattern whose (truthy) match
yields a result; the match's digits, last 4 kept. -/
def find_last4_card (text : Str) : Option Str :=
  LAST4_PATS.findSome? (fun p =>
    match find_by_regex p text with
    | some m => if m = [] then none else some (digitsLast4 m)
    | none => none)

/-! ## Pseudo-table extraction (`BaseParser._extract_table_data`) -/

/-- The five anchored `table_patterns`, in source order. -/
def TABLE_PATS : List Pat :=
  [⟨true, cat [RE.group 1 (alts [strLit "New Balance", strLit "Total Balance",
                                 strLit "Balance Due"]),
               atLeast sCls 2, RE.group 2 (plus dotNoNL), RE.eos], 2⟩,
   ⟨true, cat [RE.group 1 (alts [strLit "Payment Due Date",
                                 strLit "Due Date"]),
               atLeast sCls 2, RE.group 2 (plus dotNoNL), RE.eos], 2⟩,
   ⟨true, cat [RE.group 1 (alts [strLit "Minimum Payment Due",
                                 strLit "Minimum Payment",
                                 strLit "Min Payment"]),
               atLeast sCls 2, RE.group 2 (plus dotNoNL), RE.eos], 2⟩,
   ⟨true, cat [RE.group 1 (alts [strLit "Closing Date",
                                 strLit "Statement Date",
                                 strLit "Statement End Date"]),
               atLeast sCls 2, RE.group 2 (plus dotNoNL), RE.eos], 2⟩,
   ⟨true, cat [RE.group 1 (alts [strLit "Account Ending",
                                 strLit "Card Ending"]),
               atLeast sCls 2, RE.group 2 (plus dotNoNL), RE.eos], 2⟩]

/-- Assoc lookup in the pseudo-table (`key in table` / `table[key]`). -/
def tableLookup (tb : List (Str × Str)) (k : Str) : Option Str :=
  (tb.find? (fun p => p.1 = k)).map (·.2)

/-- Process one line: strip it, skip if empty, try every table pattern
(the source has no `break`), keeping only the first occurrence of each
title-cased key. -/
def tableLineStep (tb : List (Str × Str)) (line : Str) : List (Str × Str) :=
  let line := pyStrip line
  if line = [] then tb
  else
    TABLE_PATS.foldl (fun tb p =>
      match reSearch p line with
      | some caps =>
        match getCap caps 1, getCap caps 2 with
        | some k, some v =>
          let key := pyTitle (pyStrip k)
          let value := pyStrip v
          if tableLookup tb key = none then tb ++ [(key, value)] else tb
        | _, _ => tb
      | none => tb) tb

/-- `BaseParser._extract_table_data` (the per-parse memoization of a pure
function is observationally the function itself). -/
def extract_table_data (text : Str) : List (Str × Str) :=
  (splitNL text).foldl tableLineStep []

/-! ## The per-field extraction cascade (`_extract_field`)

`AmexParser._extract_field` and `ChaseParser._extract_field` are textually
identical methods; they are embedded once, parameterised by the field
configuration.  A value returned by a tactic is used only if truthy
(the source tests `if value:`, so an empty string falls through). -/

/-- One field's configuration: ordered direct patterns, proximity keywords
and pseudo-table key aliases. -/
structure FieldConfig where
  patterns : List Pat
  keywords : List Str
  table_keys : List Str

/-- Strategy 1: the `for pattern in config.get("patterns", [])` loop —
first pattern whose truthy `_find_by_regex` result is returned. -/
def strategy1 (text : Str) (cfg : FieldConfig) : Option Str :=
  cfg.patterns.findSome? (fun p =>
    match find_by_regex p text with
    | some v => if v = [] then none else some v
    | none => none)

/-- The per-keyword dispatch inside strategy 2, keyed on substrings of the
field name exactly as the source's `if "date" in field_name: ...` chain. -/
def strategy2_value (text fieldName keyword : Str) : Option Str :=
  if containsSub fieldName "date".data then
    find_date_near_keyword text keyword
  else if containsSub fieldName "balance".data ||
          containsSub fieldName "payment".data then
    find_amounts_near_keyword text keyword
  else if containsSub fieldName "card".data ||
          containsSub fieldName "digits".data then
    find_last4_card text
  else find_text_near_keyword text keyword

/-- Strategy 2: the `for keyword in config.get("keywords", [])` loop. -/
def strategy2 (text fieldName : Str) (cfg : FieldConfig) : Option Str :=
  cfg.keywords.findSome? (fun kw =>
    match strategy2_value text fieldName kw with
    | some v => if v = [] then none else some v
    | none => none)

/-- Strategy 3: pseudo-table lookup over the alias keys (`if table_data:`
first — an empty table skips the loop — then `if table_key in table_data`
and `if value:`). -/
def strategy3 (text : Str) (cfg : FieldConfig) : Option Str :=
  let td := extract_table_data text
  if td = [] then none
  else
    cfg.table_keys.findSome? (fun k =>
      match tableLookup td k with
      | some v => if v = [] then none else some v
      | none => none)

/-- `_extract_field`: the three-tier cascade with confidence scoring,
returning on the first success. -/
def extract_field (text fieldName : Str) (cfg : FieldConfig) :
    Option Str × ℚ :=
  match strategy1 text cfg with
  | some v => (some v, mkRat 95 100)
  | none =>
    match strategy2 text fieldName cfg with
    | some v => (some v, mkRat 85 100)
    | none =>
      match strategy3 text cfg with
      | some v => (some v, mkRat 75 100)
      | none => (none, 0)

/-! ## Structured statement data (`ExtractedData` of `schemas.py`)

The metadata dict (`provider`, `confidence_scores`,
`extraction_method`) is flattened into fields. -/

/-- The typed, normalized output of one parse. -/
structure ExtractedData where
  statement_end_date : Option Date
  payment_due_date : Option Date
  total_balance : Option ℚ
  min_payment_due : Option ℚ
  card_last_4_digits : Option Str
  provider : Str
  confidence_scores : List (Str × ℚ)
  extraction_method : Str
deriving DecidableEq, Repr

/-- `_normalize_card_digits` (identical in `AmexParser` and `ChaseParser`):
falsy input is `None`, otherwise digits only, last 4 kept. -/
def normalize_card_digits : Option Str → Option Str
  | none => none
  | some s => if s = [] then none else some (digitsLast4 s)

/-! ## ChaseParser (`chase_parser.py`) -/

/-- The `[\w\s,]` class used by Chase date captures. -/
def wsCm : RE := RE.cls (fun c => isWordChar c || pyIsSpace c || c = ',')

/-- The `[:\s]` class. -/
def colonSp : RE := RE.cls (fun c => c = ':' || pyIsSpace c)

/-- Capture `([\w\s,]+\d{4})`. -/
def dateCap : RE := RE.group 1 (cat [plus wsCm, rep dCls 4])

/-- Capture `([\d,]+\.\d{2})`. -/
def amountCap : RE := RE.group 1 (cat [plus digitComma, RE.lit '.', rep dCls 2])

/-- `FIELD_CONFIG["statement_end_date"]`. -/
def chase_end_cfg : FieldConfig :=
  { patterns :=
      [⟨false, cat [strLit "Statement Period", plus sCls, RE.star true dotAll,
                    strLit "through", plus sCls, dateCap], 1⟩,
       ⟨false, cat [strLit "Closing Date", plus sCls, dateCap], 1⟩,
       ⟨false, cat [strLit "Statement ",
                    RE.alt (cat [strLit "End", RE.opt true (strLit "ing")])
                           (strLit "Close"),
                    plus sCls, strLit "Date", plus colonSp, dateCap], 1⟩],
    keywords := ["statement period through".data, "closing date".data,
                 "statement end".data],
    table_keys := ["Closing Date".data, "Statement End Date".data] }

/-- `FIELD_CONFIG["payment_due_date"]`. -/
def chase_due_cfg : FieldConfig :=
  { patterns :=
      [⟨false, cat [strLit "Payment Due Date", plus colonSp, dateCap], 1⟩,
       ⟨false, cat [strLit "Due Date", plus colonSp, dateCap], 1⟩,
       ⟨false, cat [strLit "Pay", RE.opt true (strLit "ment"), strLit " By",
                    plus colonSp, dateCap], 1⟩],
    keywords := ["payment due date".data, "due date".data, "payment by".data],
    table_keys := ["Payment Due Date".data, "Due Date".data] }

/-- `FIELD_CONFIG["total_balance"]`. -/
def chase_bal_cfg : FieldConfig :=
  { patterns :=
      [⟨false, cat [strLit "New Balance", plus sCls, RE.lit '$', amountCap], 1⟩,
       ⟨false, cat [strLit "Total Balance", plus sCls, RE.lit '$', amountCap], 1⟩,
       ⟨false, cat [strLit "Balance Due", plus sCls, RE.lit '$', amountCap], 1⟩,
       ⟨false, cat [strLit "Current Balance", plus sCls, RE.lit '$',
                    amountCap], 1⟩],
    keywords := ["new balance".data, "total balance".data, "balance due".data,
                 "current balance".data],
    table_keys := ["New Balance".data, "Total Balance".data] }

/-- `FIELD_CONFIG["min_payment_due"]`. -/
def chase_min_cfg : FieldConfig :=
  { patterns :=
      [⟨false, cat [strLit "Minimum Payment Due", plus sCls, RE.lit '$',
                    amountCap], 1⟩,
       ⟨false, cat [strLit "Minimum Payment", plus sCls, RE.lit '$',
                    amountCap], 1⟩,
       ⟨false, cat [strLit "Min", RE.opt true (strLit "imum"), strLit " Pay",
                    RE.opt true (strLit "ment"), plus sCls, RE.lit '$',
                    amountCap], 1⟩],
    keywords := ["minimum payment due".data, "minimum payment".data,
                 "min payment".data],
    table_keys := ["Minimum Payment Due".data, "Minimum Payment".data] }

/-- `FIELD_CONFIG["card_last_4_digits"]`. -/
def chase_card_cfg : FieldConfig :=
  { patterns :=
      [⟨false, cat [strLit "Account Number", plus colonSp, RE.star false dotAll,
                    RE.group 1 (rep dCls 4)], 1⟩,
       ⟨false, cat [strLit "Card ", RE.alt (strLit "Number") (strLit "Ending"),
                    plus colonSp, RE.star false dotAll,
                    RE.group 1 (rep dCls 4)], 1⟩,
       ⟨false, cat [strLit "Account Ending",
                    plus (RE.cls (fun c => c = ':' || pyIsSpace c || c = '-')),
                    RE.group 1 (rep dCls 4)], 1⟩],
    keywords := ["account number".data, "card ending".data],
    table_keys := ["Account Number".data] }

/-- `ChaseParser.parse`: run the cascade for the five fields in
`FIELD_CONFIG` order, normalize each raw value, and record provider,
per-field confidence scores and the extraction-method tag
(`_validate_extracted_data` only logs warnings and changes nothing). -/
def chase_parse (text : Str) : ExtractedData :=
  let r1 := extract_field text "statement_end_date".data chase_end_cfg
  let r2 := extract_field text "payment_due_date".data chase_due_cfg
  let r3 := extract_field text "total_balance".data chase_bal_cfg
  let r4 := extract_field text "min_payment_due".data chase_min_cfg
  let r5 := extract_field text "card_last_4_digits".data chase_card_cfg
  { statement_end_date := parse_date r1.1
    payment_due_date := parse_date r2.1
    total_balance := clean_amount r3.1
    min_payment_due := clean_amount r4.1
    card_last_4_digits := normalize_card_digits r5.1
    provider := "Chase".data
    confidence_scores :=
      [("statement_end_date".data, r1.2), ("payment_due_date".data, r2.2),
       ("total_balance".data, r3.2), ("min_payment_due".data, r4.2),
       ("card_last_4_digits".data, r5.2)]
    extraction_method := "hybrid_multi_strategy".data }

/-! ## Provider identification (`main_parser.py`) -/

/-- The closed set of issuers bound in `PROVIDER_MAP`. -/
inductive Provider where
  | amex | chase | citi | capitalOne | boa
deriving DecidableEq, Repr

/-- `PROVIDER_MAP`, in insertion (= iteration) order of the source dict. -/
def PROVIDER_MAP : List (Str × Provider) :=
  [("american express".data, .amex),
   ("amex".data, .amex),
   ("chase".data, .chase),
   ("citi".data, .citi),
   ("citibank".data, .citi),
   ("capital one".data, .capitalOne),
   ("bank of america".data, .boa),
   ("bofa".data, .boa)]

/-- Each strategy class's `PROVIDER_NAME`.  The Capital One case is
modelled from the spec: `cap1_parser.py` (`CapitalOneParser`) is imported
by `main_parser.py` but absent from the sources, so its name string is
rendered from the spec's provider identity `CapitalOne`; no claim in this
development depends on that string. -/
def PROVIDER_NAME : Provider → Str
  | .amex => "Amex".data
  | .chase => "Chase".data
  | .citi => "Citi".data
  | .capitalOne => "Capital One".data
  | .boa => "Bank of America".data

/-- The `ProviderNotIdentifiedError` message of `_identify_provider`. -/
def PROVIDER_ERR : Str :=
  ("Could not identify credit card provider. " ++
   "Supported: Amex, Chase, Citi, Capital One, Bank of America.").data

/-- `ParserOrchestrator._identify_provider`: lower-case the first 3000
characters, return the provider of the first map keyword occurring as a
substring, else raise `ValueError` listing the supported providers. -/
def identify_provider (text : Str) : Except Str Provider :=
  match PROVIDER_MAP.findSome? (fun kp =>
      if containsSub (pyLower (text.take 3000)) kp.1 then some kp.2
      else none) with
  | some p => .ok p
  | none => .error PROVIDER_ERR

/-! ## Orchestrator (`ParserOrchestrator.run_parsing`)

The ambient effects are abstracted as parameters: `native` is the outcome
of the pdfplumber page loop (`.error` = any exception while opening or
extracting), `enhanced`/`basic` the outcome of the two OCR paths
(`.error` = any exception, handled inside `_run_ocr_fallback`), and
`strategy_parse` the outcome of the chosen strategy's `parse()`, which may
raise an arbitrary exception.  Exceptions are `PyExn`: `ValueError` versus
anything else, which is what `run_parsing`'s two `except` arms
distinguish. -/

/-- A Python exception: a `ValueError` or any other exception. -/
inductive PyExn where
  | valueError (msg : Str)
  | other (msg : Str)
deriving DecidableEq, Repr

/-- The configuration flags read by `_run_ocr_fallback`:
`settings.TESSERACT_OCR_ENABLED`, module-level `OCR_AVAILABLE` and
`OCR_HELPER_AVAILABLE`. -/
structure OcrConfig where
  tesseract_ocr_enabled : Bool
  ocr_available : Bool
  ocr_helper_available : Bool
deriving DecidableEq, Repr

/-- Message of the `ValueError` raised when pdfplumber extraction throws. -/
def EXTRACT_ERR : Str :=
  ("Failed to extract text from PDF. " ++
   "File may be corrupted or password-protected.").data

/-- Message of the `ValueError` raised on blank extracted text. -/
def NO_TEXT_ERR : Str :=
  ("PDF contains no extractable text. " ++
   "File may be empty, image-only, or corrupted.").data

/-- `_run_ocr_fallback`, returning the new `full_text`: disabled OCR or
missing libraries leave the current text unchanged; otherwise the enhanced
helper (preferred) or the basic path runs, and any exception inside the
`try` leaves `full_text = ""`. -/
def run_ocr_fallback (current : Str) (cfg : OcrConfig)
    (enhanced basic : Except Str Str) : Str :=
  if !cfg.tesseract_ocr_enabled then current
  else if !cfg.ocr_available then current
  else if cfg.ocr_helper_available then
    match enhanced with
    | .ok t => t
    | .error _ => []
  else
    match basic with
    | .ok t => t
    | .error _ => []

/-- `_extract_text`: join the page texts with newlines; any extraction
exception becomes a `ValueError`; blank text triggers the OCR fallback. -/
def extract_text (native : Except Str (List Str)) (cfg : OcrConfig)
    (enhanced basic : Except Str Str) : Except PyExn Str :=
  match native with
  | .error _ => .error (.valueError EXTRACT_ERR)
  | .ok pages =>
    let t := joinNL pages
    if pyStrip t = [] then .ok (run_ocr_fallback t cfg enhanced basic)
    else .ok t

/-- The `try` block of `run_parsing`: extract text, fail on blank text,
identify the provider, run the strategy.  The defensive `StrategyMissing`
re-check is unreachable because `_identify_provider` always sets the
strategy when it succeeds. -/
def run_parsing_body (native : Except Str (List Str)) (cfg : OcrConfig)
    (enhanced basic : Except Str Str)
    (strategy_parse : Provider → Except PyExn ExtractedData) :
    Except PyExn (Str × ExtractedData) :=
  match extract_text native cfg enhanced basic with
  | .error e => .error e
  | .ok full_text =>
    if pyStrip full_text = [] then .error (.valueError NO_TEXT_ERR)
    else
      match identify_provider full_text with
      | .error m => .error (.valueError m)
      | .ok p =>
        match strategy_parse p with
        | .error e => .error e
        | .ok d => .ok (PROVIDER_NAME p, d)

/-- The `except` arms of `run_parsing`: a `ValueError` is re-raised as is,
any other exception is translated into
`ValueError("Unexpected parsing error: ...")`. -/
def orchestrator_boundary {α : Type} (b : Except PyExn α) : Except PyExn α :=
  match b with
  | .ok r => .ok r
  | .error (.valueError m) => .error (.valueError m)
  | .error (.other m) =>
    .error (.valueError ("Unexpected parsing error: ".data ++ m))

/-- `ParserOrchestrator.run_parsing`: the pipeline body inside the single
catch boundary. -/
def run_parsing (native : Except Str (List Str)) (cfg : OcrConfig)
    (enhanced basic : Except Str Str)
    (strategy_parse : Provider → Except PyExn ExtractedData) :
    Except PyExn (Str × ExtractedData) :=
  orchestrator_boundary
    (run_parsing_body native cfg enhanced basic strategy_parse)

/-! ## Enhanced OCR (`ocr_utils.enhanced_ocr_from_bytes`)

The imaging pipeline is abstracted per page: `some t` is the text OCR
produced for that page, `none` a per-page exception.  `conv = none` models
`convert_from_bytes` itself raising. -/

/-- Python truthiness of the `max_pages` argument (`None` and `0` are
falsy). -/
def ocr_truthy : Option Int → Bool
  | none => false
  | some n => n ≠ 0

/-- The `for i, img in enumerate(images)` loop: break when `max_pages` is
truthy and `i >= max_pages`; a failing page appends `""`. -/
def ocr_pages_loop : Nat → List (Option Str) → Option Int → List Str
  | _, [], _ => []
  | i, p :: ps, mp =>
    if ocr_truthy mp && (mp.getD 0 ≤ (i : Int)) then []
    else p.getD [] :: ocr_pages_loop (i + 1) ps mp

/-- `enhanced_ocr_from_bytes`: conversion failure returns `""`; otherwise
the processed pages' texts joined with newlines. -/
def enhanced_ocr_from_bytes (conv : Option (List (Option Str)))
    (mp : Option Int) : Str :=
  match conv with
  | none => []
  | some pages => joinNL (ocr_pages_loop 0 pages mp)

/-- The Chase statement fixture `mock_chase_text` of
`tests/test_parsing.py`, verbatim: it contains
`"Statement Period: 11/21/2025 through 12/20/2025"`,
`"Payment Due Date: 01/15/2026"`, `"New Balance $500.00"`,
`"Minimum Payment Due $25.00"` and
`"Account Number: **** **** **** 9876"`. -/
def mockChaseText : Str :=
  ("\n    CHASE\n    Account Number: **** **** **** 9876\n" ++
   "    Statement Period: 11/21/2025 through 12/20/2025\n    \n" ++
   "    Payment Due Date: 01/15/2026\n    New Balance $500.00\n" ++
   "    Minimum Payment Due $25.00\n    ").data

end CCParser

deriving instance DecidableEq for Except

set_option maxRecDepth 4000

namespace CCParser

/-! ## Helper lemmas -/

/-- Characterization of a `findSome?` loop: either every element fails, or
the list splits at the first success. -/
theorem findSome_split {α β : Type} (f : α → Option β) (l : List α) :
    (l.findSome? f = none ∧ l.all (fun a => (f a).isNone) = true) ∨
    (∃ pre a post b, l = pre ++ a :: post ∧
       pre.all (fun x => (f x).isNone) = true ∧
       f a = some b ∧ l.findSome? f = some b) := by
  induction l with
  | nil => exact Or.inl ⟨rfl, rfl⟩
  | cons hd tl ih =>
    cases hf : f hd with
    | some b =>
      exact Or.inr ⟨[], hd, tl, b, rfl, rfl, hf, by
        simp [List.findSome?_cons, hf]⟩
    | none =>
      rcases ih with ⟨h1, h2⟩ | ⟨pre, a, post, b, heq, hpre, hfa, hres⟩
      · refine Or.inl ⟨?_, ?_⟩
        · simp [List.findSome?_cons, hf, h1]
        · simp [List.all_cons, hf, h2]
      · refine Or.inr ⟨hd :: pre, a, post, b, by simp [heq], ?_, hfa, ?_⟩
        · simp [List.all_cons, hf, hpre]
        · simp [List.findSome?_cons, hf, hres]

/-- An `ocr_pages_loop` with a falsy `max_pages` visits every page. -/
theorem ocr_loop_falsy (mp : Option Int) (h : ocr_truthy mp = false) :
    ∀ (pages : List (Option Str)) (i : Nat),
      ocr_pages_loop i pages mp = pages.map (fun p => p.getD []) := by
  intro pages
  induction pages with
  | nil => intro i; rfl
  | cons p ps ih =>
    intro i
    unfold ocr_pages_loop
    rw [h]
    simp [ih (i + 1)]

/-- An `ocr_pages_loop` with a positive `max_pages = n`, started at index
`i`, visits the first `n - i` remaining pages. -/
theorem ocr_loop_pos (n : ℤ) (hn : 0 < n) :
    ∀ (pages : List (Option Str)) (i : ℕ),
      ocr_pages_loop i pages (some n) =
        (pages.take (n - (i : Int)).toNat).map (fun p => p.getD []) := by
  intro pages
  induction pages with
  | nil => intro i; simp [ocr_pages_loop]
  | cons p ps ih =>
    intro i
    have h1 : n ≠ 0 := by omega
    unfold ocr_pages_loop
    by_cases hle : n ≤ (i : Int)
    · have ht : (n - (i : Int)).toNat = 0 := by omega
      simp [ocr_truthy, h1, hle, ht]
    · have ht : (n - (i : Int)).toNat = (n - ((i + 1 : ℕ) : Int)).toNat + 1 := by
        push_cast
        omega
      have hcond : (ocr_truthy (some n) && ((some n).getD 0 ≤ (i : Int))) =
          false := by
        simp [ocr_truthy, h1, hle]
      rw [hcond, ht]
      simp only [Bool.false_eq_true, if_false, List.take_succ_cons,
        List.map_cons]
      rw [ih (i + 1)]

end CCParser

namespace CCParser

/-! ## Claim theorems -/

/-- C1.  For every document text and field, `_extract_field` runs the
cascade direct-regex → keyword-proximity → pseudo-table, returning the
first tactic's value with confidence 0.95, 0.85 or 0.75 respectively and
absence with confidence 0.0 only when all three fail; the result is fixed
by the first successful tactic, the confidence is always one of the four
tier values, and a value is absent exactly when the confidence is 0. -/
theorem extract_field_first_tactic_wins (text fieldName : Str)
    (cfg : FieldConfig) :
    ((∃ v, strategy1 text cfg = some v ∧
        extract_field text fieldName cfg = (some v, mkRat 95 100)) ∨
     (strategy1 text cfg = none ∧
      ∃ v, strategy2 text fieldName cfg = some v ∧
        extract_field text fieldName cfg = (some v, mkRat 85 100)) ∨
     (strategy1 text cfg = none ∧ strategy2 text fieldName cfg = none ∧
      ∃ v, strategy3 text cfg = some v ∧
        extract_field text fieldName cfg = (some v, mkRat 75 100)) ∨
     (strategy1 text cfg = none ∧ strategy2 text fieldName cfg = none ∧
      strategy3 text cfg = none ∧
      extract_field text fieldName cfg = (none, 0))) ∧
    ((extract_field text fieldName cfg).2 = mkRat 95 100 ∨
     (extract_field text fieldName cfg).2 = mkRat 85 100 ∨
     (extract_field text fieldName cfg).2 = mkRat 75 100 ∨
     (extract_field text fieldName cfg).2 = 0) ∧
    ((extract_field text fieldName cfg).1 = none ↔
     (extract_field text fieldName cfg).2 = 0) := by
  cases h1 : strategy1 text cfg with
  | some v =>
    have he : extract_field text fieldName cfg = (some v, mkRat 95 100) := by
      unfold extract_field
      rw [h1]
    refine ⟨Or.inl ⟨v, rfl, he⟩, ?_, ?_⟩
    · rw [he]
      exact Or.inl rfl
    · rw [he]
      simp
  | none =>
    cases h2 : strategy2 text fieldName cfg with
    | some v =>
      have he : extract_field text fieldName cfg = (some v, mkRat 85 100) := by
        unfold extract_field
        rw [h1, h2]
      refine ⟨Or.inr (Or.inl ⟨rfl, v, rfl, he⟩), ?_, ?_⟩
      · rw [he]
        exact Or.inr (Or.inl rfl)
      · rw [he]
        simp
    | none =>
      cases h3 : strategy3 text cfg with
      | some v =>
        have he : extract_field text fieldName cfg =
            (some v, mkRat 75 100) := by
          unfold extract_field
          rw [h1, h2, h3]
        refine ⟨Or.inr (Or.inr (Or.inl ⟨rfl, rfl, v, rfl, he⟩)), ?_, ?_⟩
        · rw [he]
          exact Or.inr (Or.inr (Or.inl rfl))
        · rw [he]
          simp
      | none =>
        have he : extract_field text fieldName cfg = (none, 0) := by
          unfold extract_field
          rw [h1, h2, h3]
        refine ⟨Or.inr (Or.inr (Or.inr ⟨rfl, rfl, rfl, he⟩)), ?_, ?_⟩
        · rw [he]
          exact Or.inr (Or.inr (Or.inr rfl))
        · rw [he]
          simp

/-- C2.  Provider classification lower-cases the first 3000 characters and
returns the provider bound to the first keyword of the fixed ordered map
occurring as a substring (a value of the closed five-provider enumeration);
when no keyword matches it fails with the `ValueError` whose message
enumerates the supported providers. -/
theorem identify_provider_first_keyword (text : Str) :
    (∃ pre kp post, PROVIDER_MAP = pre ++ kp :: post ∧
        pre.all (fun x => !containsSub (pyLower (text.take 3000)) x.1) = true ∧
        containsSub (pyLower (text.take 3000)) kp.1 = true ∧
        identify_provider text = Except.ok kp.2) ∨
    (PROVIDER_MAP.all
        (fun x => !containsSub (pyLower (text.take 3000)) x.1) = true ∧
     identify_provider text = Except.error PROVIDER_ERR) := by
  have h := findSome_split
      (fun kp => if containsSub (pyLower (text.take 3000)) kp.1 then
          some kp.2 else none)
      PROVIDER_MAP
  rcases h with ⟨hres, hall⟩ | ⟨pre, a, post, b, heq, hpre, hfa, hres⟩
  · refine Or.inr ⟨?_, ?_⟩
    · rw [List.all_eq_true] at hall ⊢
      intro x hx
      have hx2 := hall x hx
      revert hx2
      cases hc : containsSub (pyLower (text.take 3000)) x.1 <;> simp [hc]
    · unfold identify_provider
      rw [hres]
  · cases hc : containsSub (pyLower (text.take 3000)) a.1 with
    | false =>
      rw [hc] at hfa
      simp at hfa
    | true =>
      rw [hc] at hfa
      simp at hfa
      refine Or.inl ⟨pre, a, post, heq, ?_, hc, ?_⟩
      · rw [List.all_eq_true] at hpre ⊢
        intro x hx
        have hx2 := hpre x hx
        revert hx2
        cases hcx : containsSub (pyLower (text.take 3000)) x.1 <;> simp [hcx]
      · unfold identify_provider
        rw [hres, hfa]

/-- C3.  Evaluation of the pipeline on the repository's own Chase test
fixture (`tests/test_parsing.py::mock_chase_text`): the document classifies
as Chase, and the parse yields payment due date 2026-01-15, total balance
500.00, minimum payment 25.00 and card digits "9876" as the claim states —
but the statement end date is absent (confidence 0.0), not 2025-12-20:
`Statement Period\s+` cannot match the colon after "Statement Period", the
proximity keyword "statement period through" does not occur, and the
pseudo-table has no closing-date row, contradicting the claim and the
repository's own test assertion. -/
theorem chase_code_bug_on_test_input :
    identify_provider mockChaseText = Except.ok Provider.chase ∧
    chase_parse mockChaseText =
      { statement_end_date := none
        payment_due_date := some ⟨2026, 1, 15⟩
        total_balance := some (500 : ℚ)
        min_payment_due := some (25 : ℚ)
        card_last_4_digits := some "9876".data
        provider := "Chase".data
        confidence_scores :=
          [("statement_end_date".data, 0),
           ("payment_due_date".data, mkRat 85 100),
           ("total_balance".data, mkRat 95 100),
           ("min_payment_due".data, mkRat 95 100),
           ("card_last_4_digits".data, mkRat 95 100)]
        extraction_method := "hybrid_multi_strategy".data } :=
  ⟨by decide, by decide⟩

/-- C4.  When native extraction yields blank text and the OCR capability
flag is off, `run_parsing` terminates with the `NoExtractableTextError`-kind
`ValueError` (OCR is not attempted) and returns no data. -/
theorem run_parsing_blank_text_ocr_disabled
    (pages : List Str) (cfg : OcrConfig) (enhanced basic : Except Str Str)
    (sp : Provider → Except PyExn ExtractedData)
    (hocr : cfg.tesseract_ocr_enabled = false)
    (hblank : pyStrip (joinNL pages) = []) :
    run_parsing (.ok pages) cfg enhanced basic sp =
      .error (.valueError NO_TEXT_ERR) := by
  unfold run_parsing run_parsing_body extract_text run_ocr_fallback
    orchestrator_boundary
  simp [hocr, hblank]

/-- Witness for C4 at a concrete blank two-page document with OCR
disabled. -/
theorem run_parsing_blank_text_ocr_disabled_witness :
    (OcrConfig.mk false true true).tesseract_ocr_enabled = false ∧
    pyStrip (joinNL ["".data, "   ".data]) = [] ∧
    run_parsing (.ok ["".data, "   ".data]) (OcrConfig.mk false true true)
        (.ok "ocr".data) (.ok "basic".data)
        (fun _ => .error (.other "boom".data)) =
      .error (.valueError NO_TEXT_ERR) :=
  ⟨rfl, by decide,
   run_parsing_blank_text_ocr_disabled _ _ _ _ _ rfl (by decide)⟩

/-- C5.  `run_parsing` always either returns a (provider name, data) pair
or fails with a single classified `ValueError`; any non-`ValueError`
exception from inside the pipeline is translated at the orchestrator
boundary, so no unclassified exception and no partial data ever reach the
caller. -/
theorem run_parsing_single_classified_failure
    (native : Except Str (List Str)) (cfg : OcrConfig)
    (enhanced basic : Except Str Str)
    (sp : Provider → Except PyExn ExtractedData) :
    (∃ r, run_parsing native cfg enhanced basic sp = Except.ok r) ∨
    (∃ m, run_parsing native cfg enhanced basic sp =
        Except.error (PyExn.valueError m)) := by
  unfold run_parsing
  cases hb : run_parsing_body native cfg enhanced basic sp with
  | ok r => exact Or.inl ⟨r, rfl⟩
  | error e =>
    cases e with
    | valueError m => exact Or.inr ⟨m, rfl⟩
    | other m => exact Or.inr ⟨"Unexpected parsing error: ".data ++ m, rfl⟩

/-- C6.  Date normalization strips whitespace, periods and commas, then
tries the fixed ordered format list, the first success winning — in
particular `"01/02/2025"` is read month-first as 2025-01-02 — and an input
matching no format yields `none` rather than an error. -/
theorem parse_date_format_cascade :
    (∀ s : Str,
       (parse_date (some s) = none ∧
        FORMATS.all
          (fun f => (tryFormat f (cleanDateStr s)).isNone) = true) ∨
       (∃ pre f post d, FORMATS = pre ++ f :: post ∧
          pre.all (fun g => (tryFormat g (cleanDateStr s)).isNone) = true ∧
          tryFormat f (cleanDateStr s) = some d ∧
          parse_date (some s) = some d)) ∧
    parse_date (some "01/02/2025".data) = some ⟨2025, 1, 2⟩ := by
  constructor
  · intro s
    by_cases hs : s = []
    · subst hs
      exact Or.inl ⟨rfl, by decide⟩
    · have hp0 : parse_date (some s) =
          (if s = [] then none
           else FORMATS.findSome? (fun f => tryFormat f (cleanDateStr s))) :=
        rfl
      rw [if_neg hs] at hp0
      have hp := hp0
      rcases findSome_split (fun f => tryFormat f (cleanDateStr s)) FORMATS
        with ⟨h1, h2⟩ | ⟨pre, f, post, d, heq, hpre, hf, hres⟩
      · exact Or.inl ⟨by rw [hp, h1], h2⟩
      · exact Or.inr ⟨pre, f, post, d, heq, hpre, hf, by rw [hp, hres]⟩
  · decide

/-- C7.  Amount normalization removes dollar signs, commas and whitespace,
parses the remainder as a decimal number and rounds to 2 decimal places;
`"$1,234.56"`, `"1234.56"` and `" 1234.56 "` all normalize to 1234.56 and
non-numeric input yields `none` rather than an error. -/
theorem clean_amount_normalization :
    (∀ s : Str,
       clean_amount (some s) =
         if s = [] then none
         else (pyFloat (s.filter
                 (fun c => !(c = '$' || c = ',' || pyIsSpace c)))).map
                round2) ∧
    clean_amount (some "$1,234.56".data) = some (mkRat 123456 100) ∧
    clean_amount (some "1234.56".data) = some (mkRat 123456 100) ∧
    clean_amount (some " 1234.56 ".data) = some (mkRat 123456 100) ∧
    clean_amount (some "abc".data) = none ∧
    clean_amount none = none := by
  refine ⟨?_, by decide, by decide, by decide, by decide, rfl⟩
  intro s
  by_cases hs : s = []
  · subst hs
    simp [clean_amount]
  · have hc : clean_amount (some s) =
        (if s = [] then none
         else
           match pyFloat (s.filter
               (fun c => !(c = '$' || c = ',' || pyIsSpace c))) with
           | some v => some (round2 v)
           | none => none) := rfl
    rw [if_neg hs] at hc
    rw [hc, if_neg hs]
    cases hpf : pyFloat (s.filter
        (fun c => !(c = '$' || c = ',' || pyIsSpace c))) <;> simp [hpf]

/-- C8.  Card-digit normalization strips all non-digits and keeps the last
4 remaining digits, returning whatever remains (without padding) when
fewer than 4 are present; the raw matches for "Account Ending 1001" and
"**** **** **** 9876" normalize to "1001" and "9876". -/
theorem card_digit_normalization :
    (∀ s : Str,
       normalize_card_digits (some s) =
         if s = [] then none
         else some (if 4 ≤ (s.filter Char.isDigit).length then
                      (s.filter Char.isDigit).drop
                        ((s.filter Char.isDigit).length - 4)
                    else s.filter Char.isDigit)) ∧
    find_last4_card "Account Ending 1001".data = some "1001".data ∧
    find_last4_card "**** **** **** 9876".data = some "9876".data ∧
    normalize_card_digits (some "Account Ending 1001".data) =
      some "1001".data ∧
    normalize_card_digits (some "**** **** **** 9876".data) =
      some "9876".data ∧
    normalize_card_digits none = none := by
  refine ⟨?_, by decide, by decide, by decide, by decide, rfl⟩
  intro s
  unfold normalize_card_digits digitsLast4
  rfl

/-- C9 counterexample.  With the configured page limit 0 the routine
processes both pages of a two-page document (their texts appear joined in
the output), refuting "processes at most that many pages" for limit 0. -/
theorem ocr_limit_zero_processes_all_pages_cex :
    (ocr_pages_loop 0 [some "a".data, some "b".data] (some 0)).length = 2 ∧
    enhanced_ocr_from_bytes (some [some "a".data, some "b".data]) (some 0) =
      "a\nb".data :=
  ⟨by decide, by decide⟩

/-- C9 (amended to positive limits).  For every page list and every
positive configured page limit `n`, the routine processes exactly the
first `min n (number of pages)` pages — at most `n` — a failing page
contributing the empty string while processing continues, and the result
is the processed pages' texts joined with newlines. -/
theorem ocr_positive_page_limit (pages : List (Option Str)) (n : ℤ)
    (hn : 0 < n) :
    enhanced_ocr_from_bytes (some pages) (some n) =
      joinNL ((pages.take n.toNat).map (fun p => p.getD [])) := by
  have h0 : enhanced_ocr_from_bytes (some pages) (some n) =
      joinNL (ocr_pages_loop 0 pages (some n)) := rfl
  rw [h0, ocr_loop_pos n hn pages 0]
  norm_num

/-- Witness for C9's amended theorem at limit 3 over four pages with a
failing second page: pages 1–3 are processed, page 2 contributes `""`. -/
theorem ocr_positive_page_limit_witness :
    (0 : ℤ) < 3 ∧
    enhanced_ocr_from_bytes
        (some [some "a".data, none, some "c".data, some "d".data])
        (some 3) =
      "a\n\nc".data :=
  ⟨by decide,
   (ocr_positive_page_limit
       [some "a".data, none, some "c".data, some "d".data] 3
       (by decide)).trans (by decide)⟩

/-- C10.  The page limit applies only when `max_pages` is truthy: for
`max_pages = None` and for `max_pages = 0`, every page of the document is
processed. -/
theorem ocr_falsy_limit_processes_every_page (pages : List (Option Str)) :
    enhanced_ocr_from_bytes (some pages) none =
      joinNL (pages.map (fun p => p.getD [])) ∧
    enhanced_ocr_from_bytes (some pages) (some 0) =
      joinNL (pages.map (fun p => p.getD [])) := by
  constructor
  · have h0 : enhanced_ocr_from_bytes (some pages) none =
        joinNL (ocr_pages_loop 0 pages none) := rfl
    rw [h0, ocr_loop_falsy none rfl pages 0]
  · have h0 : enhanced_ocr_from_bytes (some pages) (some 0) =
        joinNL (ocr_pages_loop 0 pages (some 0)) := rfl
    rw [h0, ocr_loop_falsy (some 0) (by decide) pages 0]

end CCParser

